import Mathlib

/-!
Verification development for the RRD (time-series) list column of the
livestatus column-projection layer (`src/livestatus/src/RRDColumn.h`).

Shallow embedding conventions:
* `std::chrono::system_clock::time_point` values are whole seconds since the
  Unix epoch, embedded as `Int` (RRD data and `timezone_offset` are whole
  seconds; `to_time_t` on such a point is the identity on the second count,
  and a value-initialized time point is the epoch, i.e. `0`).
* `unsigned long step` is embedded as `Nat` (the code only stores and prints
  it; no arithmetic that could wrap is performed on it).
* `double` sample values are embedded as `ℚ`; `std::to_string(double)`
  (fixed `%f` formatting, six fractional digits, "C" locale) is embedded as
  `doubleToString` below. Rounding of exact decimal ties at the seventh
  digit is implementation-defined in the C library and does not arise for
  any input used here.
* The renderer (`ListRenderer l(r); l.output(x)`) appends typed values in
  call order; the structured output of one column is embedded as the list of
  `RValue`s passed to `l.output`.
-/

namespace Checkmk

/-- Result type of `detail::RRDDataMaker::make`: one fixed-step sample
window (`struct Data` in the source). A value-initialized `Data{}` has
epoch start/end, step 0 and no values. -/
structure Data where
  start : Int
  «end» : Int
  step : Nat
  values : List ℚ
deriving DecidableEq, Repr

/-- Embedding of value-initialization `detail::RRDDataMaker::Data{}`:
epoch start and end, zero step, empty value sequence. -/
def Data.default : Data := ⟨0, 0, 0, []⟩

/-- Embedding of `detail::RRDDataMaker`. Its C++ state (`MonitoringCore
*_mc`, `RRDColumnArgs _args`) only parameterizes the behaviour of `make`,
whose body lives outside the given header; the maker is therefore embedded
as the (arbitrary) function `make` itself, of the declared signature
`Data make(const std::pair<std::string, std::string> &) const`. -/
structure RRDDataMaker where
  make : String × String → Data

/-- A row, as seen by this column. The only access the column performs is
`getHostNameServiceDesc(row)`, a per-row-type specialization defined
outside the given header; the row is embedded as that call's result. -/
structure Row where
  subject : Option (String × String)

/-- Embedding of `RRDColumn<T>` (the `ListColumn` base-class identity
fields `name` and `description` are carried for fidelity; `ColumnOffsets`
resolution happens inside the external `getHostNameServiceDesc`
specialization, embedded via `Row.subject`). -/
structure RRDColumn where
  name : String
  description : String
  data_maker_ : RRDDataMaker

/-- Modelled from the spec: the body of `RRDColumn<T>::getHostNameServiceDesc`
is a per-row-type specialization absent from the given sources. Per the spec
(§4.1), subject resolution "never raises for absence — returns nothing when
the row does not correspond to a valid monitored subject"; the embedding
carries that optional result on the row itself. -/
def RRDColumn.getHostNameServiceDesc (_c : RRDColumn) (row : Row) :
    Option (String × String) :=
  row.subject

/-- Embedding of `RRDColumn<T>::getData`: resolve the subject; on success
call the maker, otherwise produce the value-initialized empty `Data{}`. -/
def RRDColumn.getData (c : RRDColumn) (row : Row) : Data :=
  match c.getHostNameServiceDesc row with
  | some host_name_service_description =>
      c.data_maker_.make host_name_service_description
  | none => Data.default

/-- One typed value handed to the structured renderer (`ListRenderer::output`
overloads used by this column: a time point, an unsigned long, a double). -/
inductive RValue where
  | time (t : Int)
  | nat (n : Nat)
  | double (v : ℚ)
deriving DecidableEq, Repr

/-- Embedding of `RRDColumn<T>::output`: the structured render. The
`auth_user` and `timezone_offset` parameters are unnamed in the source
(`const contact * /* auth_user */`, `std::chrono::seconds
/*timezone_offset*/`) and unused; they are kept as parameters so that
independence claims can be stated. Emits start, end, step, then each
sample value, in that order. The viewer token (`const contact *`) is an
address the column never dereferences, embedded as `Nat`. -/
def RRDColumn.output (c : RRDColumn) (row : Row) (_auth_user : Nat)
    (_timezone_offset : Int) : List RValue :=
  let data := c.getData row
  RValue.time data.start :: RValue.time data.«end» ::
    RValue.nat data.step :: data.values.map RValue.double

/-- Left-pad a digit string with zeros to six characters (the fractional
part of `%f` formatting). -/
def padSixDigits (s : String) : String :=
  String.mk (List.replicate (6 - s.length) '0') ++ s

/-- Embedding of `std::to_string(double)`: `%f` fixed formatting in the "C"
locale — optional minus sign, integer part, a dot, exactly six fractional
digits, rounding to nearest (tie direction is implementation-defined in the
C library and immaterial for every input used here). With `q` in lowest
terms `q.num.natAbs / q.den`, the rounded count of millionths is
`⌊|q| * 10^6 + 1/2⌋ = (|num| * 10^6 * 2 + den) / (2 * den)` in `Nat`
floor division. -/
def doubleToString (q : ℚ) : String :=
  let sgn := if q.num < 0 then "-" else ""
  let n : Nat := (q.num.natAbs * 1000000 * 2 + q.den) / (2 * q.den)
  sgn ++ toString (n / 1000000) ++ "." ++ padSixDigits (toString (n % 1000000))

/-- Embedding of `RRDColumn<T>::getValue`: the flat render. `auth_user` is
unnamed and unused in the source; `timezone_offset` is added to the two
time points before `to_time_t`, then all fields are `std::to_string`-ed:
start, end, step, then each sample value. -/
def RRDColumn.getValue (c : RRDColumn) (row : Row) (_auth_user : Nat)
    (timezone_offset : Int) : List String :=
  let data := c.getData row
  toString (data.start + timezone_offset) ::
    toString (data.«end» + timezone_offset) ::
    toString data.step :: data.values.map doubleToString

/-- Canonical textual form of one structured value under a timezone offset:
time points become epoch-second integers with the offset applied, the step
an integer, samples `std::to_string(double)` text — the element-wise
flatten operation relating structured to flat output. -/
def flattenValue (timezone_offset : Int) : RValue → String
  | RValue.time t => toString (t + timezone_offset)
  | RValue.nat n => toString n
  | RValue.double v => doubleToString v

/-- One render invocation viewed as a state transformer on the column, to
express constness: the C++ methods are `const` on a column whose only state
(`data_maker_`) is a `const` member, so a call returns its result and the
column unchanged. -/
def RRDColumn.outputCall (c : RRDColumn) (row : Row) (auth_user : Nat)
    (timezone_offset : Int) : List RValue × RRDColumn :=
  (c.output row auth_user timezone_offset, c)

/-- Flat-mode render invocation as a state transformer on the column
(see `RRDColumn.outputCall`). -/
def RRDColumn.getValueCall (c : RRDColumn) (row : Row) (auth_user : Nat)
    (timezone_offset : Int) : List String × RRDColumn :=
  (c.getValue row auth_user timezone_offset, c)

/-- Result of one synchronous call against the external time-series store:
either a sample window or a transient I/O failure. -/
inductive StoreResult where
  | ok (d : Data)
  | storeFailure (msg : String)
deriving DecidableEq

/-- Modelled from the spec: the body of `detail::RRDDataMaker::make` is not
among the given sources (the header only declares it). Per the spec,
"failure to reach the store (transient I/O error) must degrade to the
canonical empty window plus a non-fatal diagnostic; it must never abort the
enclosing query", and a timeout is "surfaced as the canonical empty window,
never as a thrown/propagated fault": the fetch is a total function into
`Data` that maps a store failure to the value-initialized empty window. -/
def makeFromStore (store : String × String → StoreResult)
    (subject : String × String) : Data :=
  match store subject with
  | StoreResult.ok d => d
  | StoreResult.storeFailure _ => Data.default

/-- C1: for every row whose subject cannot be resolved
(`getHostNameServiceDesc` returns no value), the structured output is
exactly `[epoch(0), epoch(0), 0]` with zero sample values, and the flat
output is identical in content to it (its element-wise canonical textual
form under the session's timezone offset), for every viewer and every
timezone offset. -/
theorem c1_unresolved_subject_canonical_empty (c : RRDColumn) (row : Row)
    (h : c.getHostNameServiceDesc row = none) (auth_user : Nat) (tz : Int) :
    c.output row auth_user tz = [RValue.time 0, RValue.time 0, RValue.nat 0] ∧
    c.getValue row auth_user tz =
      ([RValue.time 0, RValue.time 0, RValue.nat 0]).map (flattenValue tz) := by
  have hs : row.subject = none := h
  simp [RRDColumn.output, RRDColumn.getValue, RRDColumn.getData,
    RRDColumn.getHostNameServiceDesc, hs, Data.default, flattenValue]

/-- Witness for C1 at a concrete unresolved row, viewer 0 and a nonzero
timezone offset. -/
theorem c1_witness :
    (RRDColumn.mk "rrd" "d" ⟨fun _ => Data.default⟩).output ⟨none⟩ 0 7200 =
      [RValue.time 0, RValue.time 0, RValue.nat 0] ∧
    (RRDColumn.mk "rrd" "d" ⟨fun _ => Data.default⟩).getValue ⟨none⟩ 0 7200 =
      ([RValue.time 0, RValue.time 0, RValue.nat 0]).map (flattenValue 7200) :=
  c1_unresolved_subject_canonical_empty
    (RRDColumn.mk "rrd" "d" ⟨fun _ => Data.default⟩) ⟨none⟩ rfl 0 7200

/-- C2: for every row, viewer and timezone offset, the flat output is the
three metadata strings followed by the window's sample strings in order, so
its length is exactly `3 + n` where `n` is the number of sample values in
the fetched window (in particular a zero-sample window yields only the
three metadata fields, in the structured mode as well). -/
theorem c2_flat_shape_and_length (c : RRDColumn) (row : Row)
    (auth_user : Nat) (tz : Int) :
    c.getValue row auth_user tz =
      toString ((c.getData row).start + tz) ::
        toString ((c.getData row).«end» + tz) ::
        toString (c.getData row).step ::
        (c.getData row).values.map doubleToString ∧
    (c.getValue row auth_user tz).length = 3 + (c.getData row).values.length ∧
    (c.output row auth_user tz).length = 3 + (c.getData row).values.length := by
  refine ⟨rfl, ?_, ?_⟩ <;>
    simp [RRDColumn.getValue, RRDColumn.output] <;> omega

/-- C3: for every row, viewer and timezone offset, the structured render
emits exactly the fetched window's start, end and step followed by each
sample value in sequence order — metadata always precedes data. -/
theorem c3_structured_order (c : RRDColumn) (row : Row)
    (auth_user : Nat) (tz : Int) :
    c.output row auth_user tz =
      RValue.time (c.getData row).start :: RValue.time (c.getData row).«end» ::
        RValue.nat (c.getData row).step ::
        (c.getData row).values.map RValue.double :=
  rfl

/-- C4: for every row, viewer and timezone offset, flattening the structured
output element-wise into canonical textual form (with the offset applied to
its time points) reproduces the flat output exactly. -/
theorem c4_flatten_structured_eq_flat (c : RRDColumn) (row : Row)
    (auth_user : Nat) (tz : Int) :
    (c.output row auth_user tz).map (flattenValue tz) =
      c.getValue row auth_user tz := by
  simp [RRDColumn.output, RRDColumn.getValue, flattenValue, List.map_map]

/-- C5: for every row and viewer, the timezone offset affects only the two
timestamp strings of the flat output — every element from the step onward is
the same for any two offsets — and with offset 0 the rendered start and end
are the store-reported absolute times unchanged. -/
theorem c5_offset_only_timestamps (c : RRDColumn) (row : Row)
    (auth_user : Nat) :
    (∀ tz tz' : Int, (c.getValue row auth_user tz).drop 2 =
      (c.getValue row auth_user tz').drop 2) ∧
    c.getValue row auth_user 0 =
      toString (c.getData row).start :: toString (c.getData row).«end» ::
        toString (c.getData row).step ::
        (c.getData row).values.map doubleToString := by
  refine ⟨fun tz tz' => rfl, ?_⟩
  simp [RRDColumn.getValue]

/-- C6: the structured render ignores the `timezone_offset` argument: for
every row and viewer, any two offsets give identical structured output (the
structured path emits store-absolute time points). -/
theorem c6_structured_ignores_offset (c : RRDColumn) (row : Row)
    (auth_user : Nat) (tz tz' : Int) :
    c.output row auth_user tz = c.output row auth_user tz' :=
  rfl

/-- C7 counterexample: with the window of the spec's scenario
(`t0 = 1000`, step 60, values 0.5 and 0.7) the flat output is not
`[epoch(t0), epoch(t0+120), "60", "0.5", "0.7"]`: `std::to_string(double)`
renders the samples as "0.500000" and "0.700000", not "0.5" and "0.7". -/
theorem c7_counterexample :
    (RRDColumn.mk "rrd" "d"
          ⟨fun _ => ⟨1000, 1120, 60, [mkRat 1 2, mkRat 7 10]⟩⟩).getValue
        ⟨some ("host1", "CPU load")⟩ 0 0 ≠
      ["1000", "1120", "60", "0.5", "0.7"] := by
  decide

/-- C7 amended: in flat mode the two timestamps are integer epoch seconds
after adding the timezone offset and the step is an integer, but each
sample value is rendered by `std::to_string(double)` in fixed six-decimal
form; for the scenario window (step 60, range `[t0, t0+120)`, store values
0.5 and 0.7) the structured output is `[t0, t0+120, 60, 0.5, 0.7]` and the
flat output is `[epoch(t0), epoch(t0+120), "60", "0.500000", "0.700000"]`. -/
theorem c7_amended_fixed_decimals (c : RRDColumn) (row : Row)
    (subject : String × String) (t0 : Int) (auth_user : Nat) (tz : Int)
    (hrow : row.subject = some subject)
    (hmake : c.data_maker_.make subject =
      ⟨t0, t0 + 120, 60, [mkRat 1 2, mkRat 7 10]⟩) :
    c.output row auth_user tz =
      [RValue.time t0, RValue.time (t0 + 120), RValue.nat 60,
        RValue.double (mkRat 1 2), RValue.double (mkRat 7 10)] ∧
    c.getValue row auth_user tz =
      [toString (t0 + tz), toString (t0 + 120 + tz), "60",
        "0.500000", "0.700000"] := by
  have h1 : doubleToString (mkRat 1 2) = "0.500000" := by decide
  have h2 : doubleToString (mkRat 7 10) = "0.700000" := by decide
  simp [RRDColumn.output, RRDColumn.getValue, RRDColumn.getData,
    RRDColumn.getHostNameServiceDesc, hrow, hmake, h1, h2]
  decide

/-- Witness for C7 amended at a concrete column, row, `t0 = 1000` and
offset 5. -/
theorem c7_amended_witness :
    (RRDColumn.mk "rrd" "d"
          ⟨fun _ => ⟨1000, 1000 + 120, 60, [mkRat 1 2, mkRat 7 10]⟩⟩).output
        ⟨some ("host1", "CPU load")⟩ 0 5 =
      [RValue.time 1000, RValue.time (1000 + 120), RValue.nat 60,
        RValue.double (mkRat 1 2), RValue.double (mkRat 7 10)] ∧
    (RRDColumn.mk "rrd" "d"
          ⟨fun _ => ⟨1000, 1000 + 120, 60, [mkRat 1 2, mkRat 7 10]⟩⟩).getValue
        ⟨some ("host1", "CPU load")⟩ 0 5 =
      [toString (1000 + 5 : Int), toString (1000 + 120 + 5 : Int), "60",
        "0.500000", "0.700000"] :=
  c7_amended_fixed_decimals
    (RRDColumn.mk "rrd" "d"
      ⟨fun _ => ⟨1000, 1000 + 120, 60, [mkRat 1 2, mkRat 7 10]⟩⟩)
    ⟨some ("host1", "CPU load")⟩ ("host1", "CPU load") 1000 0 5 rfl rfl

/-- C8: rendering is deterministic and stateless: a render call (in either
encoding) leaves the column unchanged, and two consecutive calls with the
same row, viewer and offset produce identical output. -/
theorem c8_deterministic_stateless (c : RRDColumn) (row : Row)
    (auth_user : Nat) (tz : Int) :
    (c.outputCall row auth_user tz).2 = c ∧
    (c.getValueCall row auth_user tz).2 = c ∧
    ((c.outputCall row auth_user tz).2.outputCall row auth_user tz).1 =
      (c.outputCall row auth_user tz).1 ∧
    ((c.getValueCall row auth_user tz).2.getValueCall row auth_user tz).1 =
      (c.getValueCall row auth_user tz).1 :=
  ⟨rfl, rfl, rfl, rfl⟩

/-- C9: a transient I/O failure reaching the store degrades to the
canonical empty window: a column whose maker fetches through a failing
store renders, in both encodings, exactly what it renders on a row with an
unresolved subject — and `makeFromStore` is a total function into `Data`,
so no fault is propagated from the render call. -/
theorem c9_store_failure_degrades (store : String × String → StoreResult)
    (subject : String × String) (msg : String)
    (hfail : store subject = StoreResult.storeFailure msg)
    (name descr : String) (row : Row) (hrow : row.subject = some subject)
    (auth_user : Nat) (tz : Int) :
    (RRDColumn.mk name descr ⟨makeFromStore store⟩).output row auth_user tz =
      (RRDColumn.mk name descr ⟨makeFromStore store⟩).output ⟨none⟩ auth_user tz ∧
    (RRDColumn.mk name descr ⟨makeFromStore store⟩).getValue row auth_user tz =
      (RRDColumn.mk name descr ⟨makeFromStore store⟩).getValue ⟨none⟩ auth_user tz := by
  simp [RRDColumn.output, RRDColumn.getValue, RRDColumn.getData,
    RRDColumn.getHostNameServiceDesc, hrow, makeFromStore, hfail]

/-- Witness for C9 at a concrete always-failing store and resolved row. -/
theorem c9_witness :
    (RRDColumn.mk "rrd" "d"
          ⟨makeFromStore fun _ => StoreResult.storeFailure "timeout"⟩).output
        ⟨some ("host1", "CPU load")⟩ 3 60 =
      (RRDColumn.mk "rrd" "d"
          ⟨makeFromStore fun _ => StoreResult.storeFailure "timeout"⟩).output
        ⟨none⟩ 3 60 ∧
    (RRDColumn.mk "rrd" "d"
          ⟨makeFromStore fun _ => StoreResult.storeFailure "timeout"⟩).getValue
        ⟨some ("host1", "CPU load")⟩ 3 60 =
      (RRDColumn.mk "rrd" "d"
          ⟨makeFromStore fun _ => StoreResult.storeFailure "timeout"⟩).getValue
        ⟨none⟩ 3 60 :=
  c9_store_failure_degrades (fun _ => StoreResult.storeFailure "timeout")
    ("host1", "CPU load") "timeout" rfl "rrd" "d"
    ⟨some ("host1", "CPU load")⟩ rfl 3 60

/-- C10: the viewer identity token is not interpreted: for every row and
timezone offset, any two viewer identities give identical structured and
flat output. -/
theorem c10_viewer_not_interpreted (c : RRDColumn) (row : Row) (tz : Int)
    (auth_user auth_user' : Nat) :
    c.output row auth_user tz = c.output row auth_user' tz ∧
    c.getValue row auth_user tz = c.getValue row auth_user' tz :=
  ⟨rfl, rfl⟩

end Checkmk
